import Mathlib

/-!
Verification development for the AutoCommit repository
(`schedule_git_commit.py` and `git_commit_executor.py`).

The Python code is shallowly embedded: every external effect (subprocess
invocations, `os.chdir`, the filesystem) is represented by an explicit
oracle/state parameter, and each Python function becomes a pure Lean
function over those parameters.  Fallible Python operations (raising
exceptions) are modelled with `Except String`, where `.error` means an
exception escapes the modelled code.
-/

/-! ## Model of `commit_folder` (schedule_git_commit.py, lines 12-63)

`commit_folder(folder_path, repo_path)` runs, in order:
`os.chdir(repo_path)` (OUTSIDE the try block), then inside `try`:
`git status` (with `check=True`), `git add <rel>/`, `git diff --cached
--quiet`, and possibly `git commit -m <msg>`.  `except
subprocess.CalledProcessError` prints `Git error: ...`; `except Exception`
prints `Error: ...`; both return `False`.

Each subprocess invocation is modelled by an oracle of type
`Except String Nat`: `.ok code` means the command ran and exited with
`code`; `.error e` means the `subprocess.run` call itself raised (e.g.
`FileNotFoundError` when `git` is not installed), which the generic
`except Exception` handler converts into a `False` return.  `chdirOk`
tells whether `os.chdir(repo_path)` succeeds; when it does not, the raised
`OSError` propagates to the caller because the `chdir` happens before the
`try` block. -/

deriving instance DecidableEq for Except

structure CmdEnv where
  chdirOk : Bool
  statusRun : Except String Nat
  addRun : Except String Nat
  addStderrTxt : String
  diffRun : Except String Nat
  commitRun : Except String Nat
  commitStderrTxt : String
deriving DecidableEq, Repr

/-- What the function printed and returned.  `stdout`/`stderr` collect the
lines written to the two streams; `commitRan` records whether the
`git commit` subprocess was actually spawned (used to state "creates no
commit"). -/
structure CommitOutcome where
  retval : Bool
  stdout : List String
  stderr : List String
  commitRan : Bool
deriving DecidableEq, Repr

/-- Process-wide mutable state touched by `commit_folder`: the current
working directory (`os.chdir`). -/
structure ProcState where
  cwd : String
deriving DecidableEq, Repr

/-- Models `os.path.basename(os.path.abspath(p))` for an absolute input
path: `abspath` normalises away trailing slashes, `basename` then takes
the part after the last `/`.  (Resolution of `.`/`..` components is not
modelled; no claim depends on it.) -/
def pyAbspathBasename (p : String) : String :=
  let rcs := p.data.reverse.dropWhile (fun c => c == '/')
  ⟨(rcs.takeWhile (fun c => c != '/')).reverse⟩

/-- The `try`/`except` body of `commit_folder` (lines 21-63): the four git
subprocess invocations in order, with both `except` handlers.  This part
of the function never raises — including the case where `subprocess.run`
itself raises, caught by `except Exception`. -/
def commit_outcome_of (env : CmdEnv) (folder_path : String) : CommitOutcome :=
  match env.statusRun with
  | .error e => ⟨false, [], ["Error: " ++ e], false⟩
  | .ok scode =>
    if scode ≠ 0 then
      ⟨false, [],
        ["Git error: Command git status returned non-zero exit status "
          ++ toString scode], false⟩
    else
      match env.addRun with
      | .error e => ⟨false, [], ["Error: " ++ e], false⟩
      | .ok acode =>
        if acode ≠ 0 then
          ⟨false, [], ["Error adding files: " ++ env.addStderrTxt], false⟩
        else
          match env.diffRun with
          | .error e => ⟨false, [], ["Error: " ++ e], false⟩
          | .ok dcode =>
            if dcode = 0 then
              ⟨true, ["No changes to commit."], [], false⟩
            else
              match env.commitRun with
              | .error e => ⟨false, [], ["Error: " ++ e], false⟩
              | .ok ccode =>
                if ccode ≠ 0 then
                  ⟨false, [],
                    ["Error committing: " ++ env.commitStderrTxt], true⟩
                else
                  ⟨true,
                    ["Successfully committed " ++ pyAbspathBasename folder_path ++ "!"],
                    [], true⟩

/-- Shallow embedding of `commit_folder` (schedule_git_commit.py:12-63).
Returns the Python-level result — `.error e` when an exception escapes the
function, `.ok out` when it returns `out.retval` — together with the
process state after the call.  `os.chdir(repo_path)` runs first, OUTSIDE
the `try` block: when it fails, the `OSError` propagates and the working
directory is left unchanged. -/
def commit_folder (env : CmdEnv) (folder_path repo_path : String)
    (st : ProcState) : Except String CommitOutcome × ProcState :=
  if env.chdirOk = false then
    (.error "OSError: chdir failed", st)
  else
    (.ok (commit_outcome_of env folder_path), { cwd := repo_path })

/-! ## Model of the executor entry point (git_commit_executor.py, lines 12-18)

`if len(sys.argv) != 3: print(usage); sys.exit(1)` — otherwise
`commit_folder(sys.argv[1], sys.argv[2])` is called with its return value
ignored and the script falls off the end (exit status 0).  An exception
raised by `commit_folder` is not caught anywhere in the executor, so the
interpreter terminates abnormally (nonzero exit status, traceback);
modelled by `.error`. -/

def executor_usage_msg : String :=
  "Usage: git_commit_executor.py <folder_path> <repo_path>"

/-- Shallow embedding of the executor `__main__` block.  `.ok (code, msgs,
st)` is a normal termination with exit status `code`, printed lines `msgs`
(the executor's own prints only) and final process state `st`; `.error e`
is an uncaught exception (abnormal, nonzero termination). -/
def executor_main (argv : List String) (env : CmdEnv) (st : ProcState) :
    Except String (Nat × List String × ProcState) :=
  match argv with
  | [_, f, r] =>
    match commit_folder env f r st with
    | (.ok _, st2) => .ok (0, [], st2)
    | (.error e, _) => .error e
  | _ => .ok (1, [executor_usage_msg], st)

/-! ## Model of `find_git_repo` (schedule_git_commit.py, lines 65-72)

Absolute paths are modelled as lists of components with the DEEPEST
component first (reversed order), so `/a/b` is `["b", "a"]` and the
filesystem root `/` is `[]`.  `os.path.dirname` is then `List.tail` and
`os.path.join current ".git"` is `".git" :: current`.  The filesystem is
an oracle `ex : List String → Bool` telling which paths exist
(`os.path.exists`).

The Python loop is `while current != os.path.dirname(current)`, i.e. it
runs while the path is not the root; note the root itself is never probed
for `.git`. -/

def find_git_repo (ex : List String → Bool) : List String → Option (List String)
  | [] => none
  | c :: rest =>
    if ex (".git" :: c :: rest) then some (c :: rest)
    else find_git_repo ex rest

/-! ## Dates and datetimes (Python `datetime`)

`Date` models `datetime.date`; `DateTime` models `datetime.datetime` down
to second resolution (microseconds are irrelevant to every claim).
Comparison is lexicographic, as in Python. -/

structure Date where
  year : Nat
  month : Nat
  day : Nat
deriving DecidableEq, Repr

structure DateTime where
  year : Nat
  month : Nat
  day : Nat
  hour : Nat
  minute : Nat
  second : Nat
deriving DecidableEq, Repr

/-- `date < date` in Python: lexicographic on (year, month, day). -/
def dateLt (a b : Date) : Bool :=
  decide (a.year < b.year) ||
    (a.year == b.year &&
      (decide (a.month < b.month) ||
        (a.month == b.month && decide (a.day < b.day))))

/-- `datetime < datetime` in Python: lexicographic on all fields. -/
def dtLt (a b : DateTime) : Bool :=
  decide (a.year < b.year) ||
    (a.year == b.year &&
      (decide (a.month < b.month) ||
        (a.month == b.month &&
          (decide (a.day < b.day) ||
            (a.day == b.day &&
              (decide (a.hour < b.hour) ||
                (a.hour == b.hour &&
                  (decide (a.minute < b.minute) ||
                    (a.minute == b.minute && decide (a.second < b.second))))))))))

def isLeapYear (y : Nat) : Bool :=
  (y % 4 == 0 && y % 100 != 0) || y % 400 == 0

/-- Days in a month, as Python's `calendar`/`datetime` validation uses. -/
def daysInMonth (y m : Nat) : Nat :=
  if m == 2 then (if isLeapYear y then 29 else 28)
  else if m == 4 || m == 6 || m == 9 || m == 11 then 30
  else 31

/-! ## Model of the date prompt loop (schedule_git_commit.py, lines 111-126)

One loop iteration reads a line; blank input defaults the target date to
"today"; otherwise the line goes through `datetime.strptime(s, "%Y-%m-%d")`
(an external library call, modelled as an oracle outcome).  A parse
failure or a parsed date `< today` makes the iteration `continue`
(re-prompt, modelled as `none`); otherwise the loop breaks with the date.

An iteration's input is therefore `Option (Option Date)`:
`none` = blank line; `some none` = non-blank line that fails `strptime`;
`some (some d)` = non-blank line parsing to `d`. -/

def date_prompt_step (today : Date) (input : Option (Option Date)) :
    Option Date :=
  match (match input with
         | none => some today
         | some p => p) with
  | none => none
  | some target => if dateLt target today then none else some target

/-- The date prompt loop over a stream of iteration inputs: returns the
first accepted date, or `none` if the stream is exhausted while still
re-prompting. -/
def date_prompt_loop (today : Date) : List (Option (Option Date)) → Option Date
  | [] => none
  | i :: rest =>
    match date_prompt_step today i with
    | some d => some d
    | none => date_prompt_loop today rest

/-! ## Model of the time prompt (schedule_git_commit.py, lines 128-139)

`time_input = input(...).strip()`, then
`hour, minute = map(int, time_input.split(":"))`, then
`if not (0 <= hour <= 23 and 0 <= minute <= 59): raise ValueError`.
Any `ValueError`/`AttributeError` re-prompts.  Inputs are modelled as
`List Char` so that Python's `str.split` and `int()` can be embedded
character by character. -/

/-- The whitespace characters Python's `str.strip()` / `int()` remove. -/
def isPySpace (c : Char) : Bool :=
  c == ' ' || c == '\t' || c == '\n' || c == '\r' || c == '\x0b' || c == '\x0c'

/-- Python `str.strip()`. -/
def pyStrip (cs : List Char) : List Char :=
  ((cs.dropWhile isPySpace).reverse.dropWhile isPySpace).reverse

/-- Python `str.split(sep)` for a single-character separator: splits at
every occurrence, keeping empty fields (`"".split(":") == [""]`,
`":".split(":") == ["", ""]`). -/
def splitOnChar (sep : Char) : List Char → List (List Char)
  | [] => [[]]
  | c :: rest =>
    if c == sep then [] :: splitOnChar sep rest
    else
      match splitOnChar sep rest with
      | f :: others => (c :: f) :: others
      | [] => [[c]]

def digitVal (c : Char) : Option Nat :=
  if c.isDigit then some (c.toNat - 48) else none

/-- Digit string after the first digit, allowing single underscores
BETWEEN digits (Python 3.6+ `int()` grammar: `digit (["_"] digit)*`). -/
def pyDigitsAux : List Char → Nat → Option Nat
  | [], acc => some acc
  | '_' :: c :: rest, acc =>
    match digitVal c with
    | some d => pyDigitsAux rest (acc * 10 + d)
    | none => none
  | ['_'], _ => none
  | c :: rest, acc =>
    match digitVal c with
    | some d => pyDigitsAux rest (acc * 10 + d)
    | none => none

/-- Nonempty digit string (underscore-separated) to its value. -/
def pyDigits : List Char → Option Nat
  | [] => none
  | c :: rest =>
    match digitVal c with
    | some d => pyDigitsAux rest d
    | none => none

/-- Python `int(s)` on a string: strips whitespace, allows one optional
sign, then a digit string with optional single underscores between
digits; anything else raises `ValueError` (`none`). -/
def py_int (cs : List Char) : Option Int :=
  match pyStrip cs with
  | '+' :: rest => (pyDigits rest).map (fun n => (n : Int))
  | '-' :: rest => (pyDigits rest).map (fun n => -(n : Int))
  | rest => (pyDigits rest).map (fun n => (n : Int))

/-- One iteration of the time prompt loop: `some (h, m)` accepts the
input and breaks the loop; `none` re-prompts. -/
def time_prompt_step (raw : List Char) : Option (Int × Int) :=
  let ti := pyStrip raw
  match (splitOnChar ':' ti).map py_int with
  | [some h, some m] =>
    if 0 ≤ h ∧ h ≤ 23 ∧ 0 ≤ m ∧ m ≤ 59 then some (h, m) else none
  | _ => none

/-- Modelled from the spec: "parsed strictly as HH:MM" — exactly two
digits, a colon, two digits.  Used only to compare the spec's wording
with what the code accepts. -/
def spec_time_format (cs : List Char) : Bool :=
  match cs with
  | [a, b, c, d, e] => a.isDigit && b.isDigit && c == ':' && d.isDigit && e.isDigit
  | _ => false

/-! ## Combining date and time (schedule_git_commit.py, lines 141-148)

`datetime.combine(target_date, datetime.min.time().replace(hour, minute))`
produces a datetime with seconds 0.  If it is `< datetime.now()`, the code
warns and does `target_datetime.replace(day=target_datetime.day + 1)`;
`datetime.replace` validates the new day against the month's length and
raises `ValueError` when it is out of range. -/

def datetime_combine (d : Date) (hour minute : Nat) : DateTime :=
  ⟨d.year, d.month, d.day, hour, minute, 0⟩

/-- Python `datetime.replace(day=d)`: validates `1 <= d <=
daysInMonth` and raises `ValueError` otherwise. -/
def dt_replace_day (t : DateTime) (d : Nat) : Except String DateTime :=
  if 1 ≤ d ∧ d ≤ daysInMonth t.year t.month then .ok { t with day := d }
  else .error "ValueError: day is out of range for month"

/-- Lines 141-148 of `get_user_input`: combine date and time; if the
result is in the past, warn (the `Bool` in the result) and bump the day
field by one.  `.error` = the `ValueError` from `replace` escaping
`get_user_input` (nothing in the script catches it). -/
def combine_and_roll (d : Date) (hour minute : Nat) (now : DateTime) :
    Except String (DateTime × Bool) :=
  let target := datetime_combine d hour minute
  if dtLt target now then
    match dt_replace_day target (target.day + 1) with
    | .ok t => .ok (t, true)
    | .error e => .error e
  else .ok (target, false)

/-! ## Model of `create_launchd_plist` (schedule_git_commit.py, lines 150-202)

The label is
`f"com.gitcommit.{folder_name.lower().replace(' ', '').replace('-', '')}.{target.strftime('%Y%m%d%H%M')}"`,
the plist path is `os.path.join(launchd_dir, f"{label}.plist")`, and the
file is written with `open(plist_path, "wb")`, which truncates and
overwrites unconditionally.  `which python3` discovery and
`os.makedirs(..., exist_ok=True)` are modelled by passing the resolved
`python3_path` / an always-succeeding directory creation.  The
LaunchAgents directory is modelled as an association list from plist
paths to the records written there. -/

/-- Decimal digits of `n`, zero-padded on the left to width `w` (the
behaviour of `strftime` on `%Y`/`%m`/`%d`/`%H`/`%M` for in-range
values). -/
def padNum (w n : Nat) : String :=
  let s := toString n
  ⟨List.replicate (w - s.length) '0' ++ s.data⟩

/-- `folder_name.lower().replace(' ', '').replace('-', '')` (ASCII
lower-casing; the Python `str.lower` agrees on ASCII). -/
def normalize_folder_name (s : String) : String :=
  ⟨(s.data.map Char.toLower).filter (fun c => !(c == ' ' || c == '-'))⟩

/-- `target_datetime.strftime('%Y%m%d%H%M')`. -/
def timestamp_label_str (t : DateTime) : String :=
  padNum 4 t.year ++ padNum 2 t.month ++ padNum 2 t.day ++
    padNum 2 t.hour ++ padNum 2 t.minute

/-- `target_datetime.strftime('%Y%m%d_%H%M')` (used in the log paths). -/
def log_timestamp_str (t : DateTime) : String :=
  padNum 4 t.year ++ padNum 2 t.month ++ padNum 2 t.day ++ "_" ++
    padNum 2 t.hour ++ padNum 2 t.minute

/-- The launchd job label derived from a folder's base name and the
target datetime (line 156). -/
def launchd_label (folder_name : String) (t : DateTime) : String :=
  "com.gitcommit." ++ normalize_folder_name folder_name ++ "." ++
    timestamp_label_str t

/-- The fields of a `DateTime` that the label depends on: everything at
minute resolution. -/
def minuteKey (t : DateTime) : Nat × Nat × Nat × Nat × Nat :=
  (t.year, t.month, t.day, t.hour, t.minute)

/-- `os.path.dirname`: everything up to the last `/`, with trailing
slashes stripped unless the result is all slashes. -/
def pyDirname (p : String) : String :=
  let keep := p.data.reverse.dropWhile (fun c => c != '/')
  let strippedKeep := keep.dropWhile (fun c => c == '/')
  if strippedKeep == [] then ⟨keep.reverse⟩ else ⟨strippedKeep.reverse⟩

/-- The dictionary `plist_data` serialised into the plist file
(lines 175-192). -/
structure PlistData where
  label : String
  programArguments : List String
  calMonth : Nat
  calDay : Nat
  calHour : Nat
  calMinute : Nat
  standardOutPath : String
  standardErrorPath : String
  runAtLoad : Bool
deriving DecidableEq, Repr

/-- The record `create_launchd_plist` builds for a given folder, repo,
target datetime, executor script path and resolved python3 path. -/
def plist_of (folder_path repo_path : String) (t : DateTime)
    (script_path python3_path : String) : PlistData :=
  let folder_name := pyAbspathBasename folder_path
  let logs_dir := pyDirname script_path ++ "/logs"
  { label := launchd_label folder_name t
    programArguments := [python3_path, script_path, folder_path, repo_path]
    calMonth := t.month
    calDay := t.day
    calHour := t.hour
    calMinute := t.minute
    standardOutPath :=
      logs_dir ++ "/commit_" ++ folder_name ++ "_" ++ log_timestamp_str t ++ ".log"
    standardErrorPath :=
      logs_dir ++ "/commit_" ++ folder_name ++ "_" ++ log_timestamp_str t ++ "_error.log"
    runAtLoad := false }

/-- The LaunchAgents directory: plist path ↦ contents written there. -/
def PlistFS := List (String × PlistData)

/-- `open(path, "wb"); plistlib.dump(...)`: create or truncate-overwrite. -/
def fsWrite : PlistFS → String → PlistData → PlistFS
  | [], p, d => [(p, d)]
  | (q, e) :: rest, p, d =>
    if q == p then (p, d) :: rest else (q, e) :: fsWrite rest p d

/-- Read back the contents at a plist path. -/
def fsRead : PlistFS → String → Option PlistData
  | [], _ => none
  | (q, e) :: rest, p => if q == p then some e else fsRead rest p

/-- Shallow embedding of `create_launchd_plist`: computes the label and
plist path, writes (overwriting) the plist file, and returns
`((plist_path, label), new filesystem)` as the Python function returns
`plist_path, label`. -/
def create_launchd_plist (folder_path repo_path : String) (t : DateTime)
    (script_path python3_path launchd_dir : String) (fs : PlistFS) :
    (String × String) × PlistFS :=
  let d := plist_of folder_path repo_path t script_path python3_path
  let plist_path := launchd_dir ++ "/" ++ d.label ++ ".plist"
  ((plist_path, d.label), fsWrite fs plist_path d)

/-! ## Theorems -/

/-- Shared helper: the try-block outcome always reports failures on
stderr. -/
theorem commit_outcome_stderr (env : CmdEnv) (f : String) :
    (commit_outcome_of env f).retval = false →
    (commit_outcome_of env f).stderr ≠ [] := by
  unfold commit_outcome_of
  repeat' split
  all_goals simp

/-- Shared helper: when the initial `os.chdir` succeeds, `commit_folder`
returns normally with the try-block outcome and leaves the working
directory at `repo_path`. -/
theorem commit_folder_ok_of_chdir (env : CmdEnv) (f r : String)
    (st : ProcState) (h : env.chdirOk = true) :
    commit_folder env f r st = (.ok (commit_outcome_of env f), ⟨r⟩) := by
  unfold commit_folder
  rw [h]
  simp

/-- Claim C1 (corrected) — counterexample to the claim as stated: there
is a pair of arguments for which `commit_folder` raises to its caller.
When `repo_path` is not a usable directory, the `os.chdir(repo_path)` on
line 15 raises, and it sits BEFORE the `try` block, so no handler catches
it. -/
theorem commit_folder_can_raise_counterexample :
    (commit_folder ⟨false, .ok 0, .ok 0, "", .ok 0, .ok 0, ""⟩
        "/repo/folder" "/repo" ⟨"/start"⟩).1
      = .error "OSError: chdir failed" := rfl

/-- Claim C1 (amended): provided the initial working-directory change
`os.chdir(repo_path)` succeeds, `commit_folder` never raises an exception
to its caller — every failure of an external command, and every
unexpected error inside the commit sequence, is printed to the error
stream and converted into a return value of `False`. -/
theorem commit_folder_no_raise_after_chdir :
    ∀ (env : CmdEnv) (f r : String) (st : ProcState), env.chdirOk = true →
      (commit_folder env f r st).1 = .ok (commit_outcome_of env f) ∧
      ((commit_outcome_of env f).retval = false →
        (commit_outcome_of env f).stderr ≠ []) := by
  intro env f r st h
  rw [commit_folder_ok_of_chdir env f r st h]
  exact ⟨rfl, commit_outcome_stderr env f⟩

theorem commit_folder_no_raise_after_chdir_witness :
    (⟨true, .ok 0, .ok 1, "add failed", .ok 0, .ok 0, ""⟩ : CmdEnv).chdirOk = true ∧
    ((commit_folder ⟨true, .ok 0, .ok 1, "add failed", .ok 0, .ok 0, ""⟩
        "/repo/folder" "/repo" ⟨"/"⟩).1 =
      .ok (commit_outcome_of ⟨true, .ok 0, .ok 1, "add failed", .ok 0, .ok 0, ""⟩
        "/repo/folder") ∧
    ((commit_outcome_of ⟨true, .ok 0, .ok 1, "add failed", .ok 0, .ok 0, ""⟩
        "/repo/folder").retval = false →
      (commit_outcome_of ⟨true, .ok 0, .ok 1, "add failed", .ok 0, .ok 0, ""⟩
        "/repo/folder").stderr ≠ [])) :=
  ⟨rfl, commit_folder_no_raise_after_chdir _ "/repo/folder" "/repo" ⟨"/"⟩ rfl⟩

/-- Claim C3 (confirmed): when staging succeeds and the staged diff
against the index is empty (`git diff --cached --quiet` exits 0),
`commit_folder` prints "No changes to commit." and returns `True` without
ever spawning `git commit` (`commitRan = false`).  Because no commit is
created and nothing else changes the repository, a repeated invocation
runs against the same command environment `env`, and the second conjunct
shows the repeat — from any process state — again returns `True`, prints
the same report and creates no commit. -/
theorem commit_folder_no_changes_idempotent :
    ∀ (env : CmdEnv) (f r : String) (st st' : ProcState),
      env.chdirOk = true → env.statusRun = .ok 0 → env.addRun = .ok 0 →
      env.diffRun = .ok 0 →
      (commit_folder env f r st).1 =
        .ok ⟨true, ["No changes to commit."], [], false⟩ ∧
      (commit_folder env f r st').1 =
        .ok ⟨true, ["No changes to commit."], [], false⟩ := by
  intro env f r st st' h hs ha hd
  have hout : commit_outcome_of env f = ⟨true, ["No changes to commit."], [], false⟩ := by
    unfold commit_outcome_of
    rw [hs, ha, hd]
    simp
  rw [commit_folder_ok_of_chdir env f r st h, commit_folder_ok_of_chdir env f r st' h, hout]
  exact ⟨rfl, rfl⟩

theorem commit_folder_no_changes_idempotent_witness :
    (commit_folder ⟨true, .ok 0, .ok 0, "", .ok 0, .ok 0, ""⟩
        "/repo/widgets" "/repo" ⟨"/"⟩).1 =
      .ok ⟨true, ["No changes to commit."], [], false⟩ ∧
    (commit_folder ⟨true, .ok 0, .ok 0, "", .ok 0, .ok 0, ""⟩
        "/repo/widgets" "/repo" ⟨"/repo"⟩).1 =
      .ok ⟨true, ["No changes to commit."], [], false⟩ :=
  commit_folder_no_changes_idempotent _ "/repo/widgets" "/repo" ⟨"/"⟩ ⟨"/repo"⟩
    rfl rfl rfl rfl

/-- Claim C9 (corrected) — counterexample to the claim as stated: an
invocation on which the working directory is NOT changed to `repo_path`.
When `os.chdir(repo_path)` itself fails, the function raises and the
process keeps its previous working directory. -/
theorem commit_folder_cwd_unchanged_counterexample :
    (commit_folder ⟨false, .ok 0, .ok 0, "", .ok 0, .ok 0, ""⟩
        "/repo/folder" "/repo" ⟨"/start"⟩).2 = ⟨"/start"⟩ ∧
    "/start" ≠ "/repo" := by
  exact ⟨rfl, by decide⟩

/-- Claim C9 (amended): on every invocation in which the initial
`os.chdir(repo_path)` succeeds, the process's current working directory
is changed to `repo_path` as a side effect and remains changed after
`commit_folder` returns, whatever the outcome (success, no-op, or
failure). -/
theorem commit_folder_cwd_after_chdir :
    ∀ (env : CmdEnv) (f r : String) (st : ProcState), env.chdirOk = true →
      (commit_folder env f r st).2 = ⟨r⟩ := by
  intro env f r st h
  rw [commit_folder_ok_of_chdir env f r st h]

theorem commit_folder_cwd_after_chdir_witness :
    (commit_folder ⟨true, .ok 0, .ok 1, "boom", .ok 0, .ok 0, ""⟩
        "/repo/folder" "/repo" ⟨"/start"⟩).2 = ⟨"/repo"⟩ :=
  commit_folder_cwd_after_chdir _ "/repo/folder" "/repo" ⟨"/start"⟩ rfl

/-- Claim C5 (corrected) — counterexample to the claim as stated: an
invocation with exactly two user arguments that does NOT exit with status
0.  When `commit_folder` raises (here: `os.chdir` fails on a bad
`repo_path`), nothing in the executor catches the exception, so the
interpreter terminates abnormally with a traceback and a nonzero status
instead of exiting 0. -/
theorem executor_nonzero_on_raise_counterexample :
    executor_main ["git_commit_executor.py", "/repo/folder", "/repo"]
        ⟨false, .ok 0, .ok 0, "", .ok 0, .ok 0, ""⟩ ⟨"/start"⟩
      = .error "OSError: chdir failed" := rfl

/-- Claim C5 (amended): with an argument count different from exactly two
user arguments the executor prints the usage message and exits with
status 1; with exactly two arguments it performs the commit sequence once
and — whenever `commit_folder` returns normally, which it does whenever
the initial `os.chdir(repo_path)` succeeds — exits with status 0
regardless of whether the commit succeeded or failed. -/
theorem executor_main_exit_codes :
    ∀ (argv : List String) (env : CmdEnv) (st : ProcState),
      (argv.length ≠ 3 →
        executor_main argv env st = .ok (1, [executor_usage_msg], st)) ∧
      (∀ s f r, argv = [s, f, r] → env.chdirOk = true →
        executor_main argv env st = .ok (0, [], ⟨r⟩)) := by
  intro argv env st
  constructor
  · intro hlen
    match argv with
    | [] => rfl
    | [_] => rfl
    | [_, _] => rfl
    | [_, _, _] => exact absurd rfl hlen
    | _ :: _ :: _ :: _ :: _ => rfl
  · rintro s f r rfl h
    unfold executor_main
    dsimp only
    rw [commit_folder_ok_of_chdir env f r st h]

theorem executor_main_exit_codes_witness :
    executor_main ["git_commit_executor.py"]
        ⟨true, .ok 0, .ok 0, "", .ok 0, .ok 0, ""⟩ ⟨"/"⟩
      = .ok (1, [executor_usage_msg], ⟨"/"⟩) ∧
    executor_main ["git_commit_executor.py", "/repo/folder", "/repo"]
        ⟨true, .ok 0, .ok 0, "", .ok 0, .ok 1, "denied"⟩ ⟨"/"⟩
      = .ok (0, [], ⟨"/repo"⟩) :=
  ⟨(executor_main_exit_codes ["git_commit_executor.py"]
      ⟨true, .ok 0, .ok 0, "", .ok 0, .ok 0, ""⟩ ⟨"/"⟩).1 (by decide),
   (executor_main_exit_codes ["git_commit_executor.py", "/repo/folder", "/repo"]
      ⟨true, .ok 0, .ok 0, "", .ok 0, .ok 1, "denied"⟩ ⟨"/"⟩).2
     "git_commit_executor.py" "/repo/folder" "/repo" rfl rfl⟩

/-- Helper for C6: a single date-prompt iteration never accepts a date
earlier than today. -/
theorem date_prompt_step_not_past (today : Date) (i : Option (Option Date))
    (d : Date) (h : date_prompt_step today i = some d) :
    dateLt d today = false := by
  unfold date_prompt_step at h
  rcases i with _ | p
  · dsimp at h
    split at h
    · cases h
    · rename_i hcond
      cases h
      simpa using hcond
  · rcases p with _ | d'
    · cases h
    · dsimp at h
      split at h
      · cases h
      · rename_i hcond
        cases h
        simpa using hcond

/-- Helper for C6: whatever date the prompt loop exits with is not
earlier than today. -/
theorem date_prompt_loop_not_past (today : Date) :
    ∀ (inputs : List (Option (Option Date))) (d : Date),
      date_prompt_loop today inputs = some d → dateLt d today = false := by
  intro inputs
  induction inputs with
  | nil => intro d h; cases h
  | cons i rest ih =>
    intro d h
    unfold date_prompt_loop at h
    cases hstep : date_prompt_step today i with
    | some d2 =>
      rw [hstep] at h
      dsimp at h
      cases h
      exact date_prompt_step_not_past today i _ hstep
    | none =>
      rw [hstep] at h
      exact ih d h

/-- Claim C6 (confirmed): every date input that parses (strictly as
YYYY-MM-DD, performed by the `strptime` oracle) to a date strictly
earlier than today is rejected by the prompt iteration (re-prompt), and
consequently the date the prompt loop exits with — the only value that
can reach job registration — is never strictly earlier than today. -/
theorem date_prompt_no_past_date :
    (∀ (today : Date) (inputs : List (Option (Option Date))) (d : Date),
      date_prompt_loop today inputs = some d → dateLt d today = false) ∧
    (∀ (today d : Date), dateLt d today = true →
      date_prompt_step today (some (some d)) = none) := by
  constructor
  · exact fun today => date_prompt_loop_not_past today
  · intro today d h
    unfold date_prompt_step
    dsimp
    rw [if_pos h]

theorem date_prompt_no_past_date_witness :
    dateLt ⟨2025, 10, 12⟩ ⟨2025, 10, 12⟩ = false ∧
    date_prompt_step ⟨2025, 10, 12⟩ (some (some ⟨2025, 10, 11⟩)) = none :=
  ⟨date_prompt_no_past_date.1 ⟨2025, 10, 12⟩ [some (some ⟨2025, 10, 12⟩)]
      ⟨2025, 10, 12⟩ (by decide),
   date_prompt_no_past_date.2 ⟨2025, 10, 12⟩ ⟨2025, 10, 11⟩ (by decide)⟩

/-- Claim C4 (code_bug): the roll-forward of a past target timestamp is
implemented as `target_datetime.replace(day=target_datetime.day + 1)`
(line 146), which on the LAST day of a month asks for an out-of-range day
and makes `datetime.replace` raise `ValueError` instead of advancing one
calendar day — the setup flow crashes.  First conjunct: the chosen target
(2025-01-31 10:00 with "now" 2025-01-31 12:00) is indeed in the past, so
the roll-forward branch is taken; second: the code raises; third: on a
non-final day of the month the code does advance by exactly one calendar
day and warns, as the claim describes. -/
theorem combine_and_roll_month_end_raises :
    dtLt (datetime_combine ⟨2025, 1, 31⟩ 10 0) ⟨2025, 1, 31, 12, 0, 0⟩ = true ∧
    combine_and_roll ⟨2025, 1, 31⟩ 10 0 ⟨2025, 1, 31, 12, 0, 0⟩ =
      .error "ValueError: day is out of range for month" ∧
    combine_and_roll ⟨2025, 1, 30⟩ 10 0 ⟨2025, 1, 30, 12, 0, 0⟩ =
      .ok (⟨2025, 1, 31, 10, 0, 0⟩, true) := by decide

/-- Helper for C2: full characterisation of `find_git_repo` by induction
on the (reversed) path.  Ancestors of `p` (including `p` itself and the
root `[]`) are exactly the suffixes of `p` in this representation; the
loop visits the nonempty ones from the longest (nearest) down. -/
theorem find_git_repo_sound (ex : List String → Bool) (p : List String) :
    (∀ s, find_git_repo ex p = some s →
        s ≠ [] ∧ s <:+ p ∧ ex (".git" :: s) = true ∧
        ∀ t, t <:+ p → t ≠ [] → ex (".git" :: t) = true → t <:+ s) ∧
    (find_git_repo ex p = none →
        ∀ t, t <:+ p → t ≠ [] → ex (".git" :: t) = false) := by
  induction p with
  | nil =>
    constructor
    · intro s hs; cases hs
    · intro _ t ht hne
      rw [List.suffix_nil] at ht
      exact absurd ht hne
  | cons c rest ih =>
    constructor
    · intro s hs
      unfold find_git_repo at hs
      by_cases hex : ex (".git" :: c :: rest) = true
      · rw [if_pos hex] at hs
        cases hs
        exact ⟨by simp, List.suffix_refl _, hex, fun t ht _ _ => ht⟩
      · rw [if_neg hex] at hs
        obtain ⟨hne, hsuf, hx, hmax⟩ := ih.1 s hs
        refine ⟨hne, hsuf.trans (List.suffix_cons c rest), hx, ?_⟩
        intro t ht htne htx
        rcases List.suffix_cons_iff.mp ht with heq | ht2
        · subst heq; exact absurd htx hex
        · exact hmax t ht2 htne htx
    · intro hnone t ht htne
      unfold find_git_repo at hnone
      by_cases hex : ex (".git" :: c :: rest) = true
      · rw [if_pos hex] at hnone; cases hnone
      · rw [if_neg hex] at hnone
        rcases List.suffix_cons_iff.mp ht with heq | ht2
        · subst heq
          exact Bool.not_eq_true _ ▸ eq_false_of_ne_true hex
        · exact ih.2 hnone t ht2 htne

/-- Claim C2 (corrected) — counterexample to the claim as stated: a path
(`/a`, here the reversed component list `["a"]`) that lies inside a
repository — its ancestor the filesystem root `/` (the empty component
list) contains `.git` — yet `find_git_repo` returns `None`: the loop
`while current != dirname(current)` stops AT the root without ever
probing it for `.git`. -/
theorem find_git_repo_root_counterexample :
    find_git_repo (fun q => q == [".git"]) ["a"] = none ∧
    (fun q : List String => q == [".git"]) (".git" :: ([] : List String)) = true ∧
    ([] : List String) <:+ ["a"] := by
  refine ⟨by decide, by decide, ?_⟩
  exact ⟨["a"], by simp⟩

/-- Claim C2 (amended): for every path, if some ancestor STRICTLY BELOW
the filesystem root (the path itself included) contains `.git`, then
`find_git_repo` returns the nearest such ancestor, no matter how deep the
nesting; if no non-root ancestor contains `.git`, it returns the
not-found value `None` — the filesystem root itself is never probed, so
a repository rooted at `/` is not found.  (Paths are reversed component
lists: ancestors are suffixes, the root is `[]`, and "nearest" means
every other qualifying ancestor is an ancestor of it.) -/
theorem find_git_repo_nearest_ancestor :
    ∀ (ex : List String → Bool) (p : List String),
      ((∃ s, s ≠ [] ∧ s <:+ p ∧ ex (".git" :: s) = true) →
        ∃ s, find_git_repo ex p = some s ∧ s ≠ [] ∧ s <:+ p ∧
          ex (".git" :: s) = true ∧
          ∀ t, t <:+ p → t ≠ [] → ex (".git" :: t) = true → t <:+ s) ∧
      ((∀ t, t <:+ p → t ≠ [] → ex (".git" :: t) = false) →
        find_git_repo ex p = none) := by
  intro ex p
  have hs := find_git_repo_sound ex p
  constructor
  · rintro ⟨s, hne, hsuf, hex⟩
    cases hfind : find_git_repo ex p with
    | some w => exact ⟨w, rfl, hs.1 w hfind⟩
    | none =>
      have := hs.2 hfind s hsuf hne
      rw [hex] at this
      cases this
  · intro hall
    cases hfind : find_git_repo ex p with
    | some w =>
      obtain ⟨hne, hsuf, hex, _⟩ := hs.1 w hfind
      have := hall w hsuf hne
      rw [hex] at this
      cases this
    | none => rfl

theorem find_git_repo_nearest_ancestor_witness :
    ∃ s, find_git_repo (fun q => q == [".git", "a"]) ["c", "b", "a"] = some s ∧
      s ≠ [] ∧ s <:+ ["c", "b", "a"] ∧
      (fun q : List String => q == [".git", "a"]) (".git" :: s) = true ∧
      ∀ t, t <:+ ["c", "b", "a"] → t ≠ [] →
        (fun q : List String => q == [".git", "a"]) (".git" :: t) = true →
        t <:+ s :=
  (find_git_repo_nearest_ancestor (fun q => q == [".git", "a"]) ["c", "b", "a"]).1
    ⟨["a"], by decide, ⟨["c", "b"], rfl⟩, by decide⟩

set_option maxRecDepth 10000

/-- Claim C7 (corrected) — counterexample to the claim as stated: the
input `"4 : 5"` is not strictly of the form HH:MM (the spec-modelled
`spec_time_format` rejects it), yet the time prompt accepts it as 4:05,
because `int()` strips whitespace around each colon-separated field. -/
theorem time_prompt_lenient_counterexample :
    spec_time_format "4 : 5".toList = false ∧
    time_prompt_step "4 : 5".toList = some (4, 5) := by decide

/-- Claim C7 (amended): every input the time prompt accepts has an
integer hour in [0,23] and an integer minute in [0,59] (first conjunct:
soundness — out-of-range or non-parsing input always re-prompts), and
every strictly-HH:MM input is accepted exactly when its two-digit
components are in range (second conjunct); but acceptance is not LIMITED
to the strict HH:MM shape, since Python's `int()` also tolerates
surrounding whitespace, a sign, and underscores in each field. -/
theorem time_prompt_step_characterized :
    (∀ (cs : List Char) (h m : Int), time_prompt_step cs = some (h, m) →
      0 ≤ h ∧ h ≤ 23 ∧ 0 ≤ m ∧ m ≤ 59) ∧
    (∀ (a b d e : Fin 10),
      time_prompt_step [Nat.digitChar a.val, Nat.digitChar b.val, ':',
          Nat.digitChar d.val, Nat.digitChar e.val] =
        if 10 * a.val + b.val ≤ 23 ∧ 10 * d.val + e.val ≤ 59
        then some (((10 * a.val + b.val : Nat) : Int),
                   ((10 * d.val + e.val : Nat) : Int))
        else none) := by
  constructor
  · intro cs h m hs
    unfold time_prompt_step at hs
    dsimp only at hs
    split at hs
    · split at hs
      · rename_i hcond
        cases hs
        exact hcond
      · cases hs
    · cases hs
  · decide

theorem time_prompt_step_characterized_witness :
    (0 ≤ (4 : Int) ∧ (4 : Int) ≤ 23 ∧ 0 ≤ (0 : Int) ∧ (0 : Int) ≤ 59) ∧
    time_prompt_step [Nat.digitChar (0 : Fin 10).val, Nat.digitChar (4 : Fin 10).val,
        ':', Nat.digitChar (0 : Fin 10).val, Nat.digitChar (0 : Fin 10).val] =
      if 10 * (0 : Fin 10).val + (4 : Fin 10).val ≤ 23 ∧
         10 * (0 : Fin 10).val + (0 : Fin 10).val ≤ 59
      then some (((10 * (0 : Fin 10).val + (4 : Fin 10).val : Nat) : Int),
                 ((10 * (0 : Fin 10).val + (0 : Fin 10).val : Nat) : Int))
      else none :=
  ⟨time_prompt_step_characterized.1 "04:00".toList 4 0 (by decide),
   time_prompt_step_characterized.2 0 4 0 0⟩

/-- Shared helper: the `%Y%m%d%H%M` string depends only on the
minute-resolution fields. -/
theorem timestamp_label_congr {t1 t2 : DateTime}
    (h : minuteKey t1 = minuteKey t2) :
    timestamp_label_str t1 = timestamp_label_str t2 := by
  unfold minuteKey at h
  simp only [Prod.mk.injEq] at h
  obtain ⟨h1, h2, h3, h4, h5⟩ := h
  unfold timestamp_label_str
  rw [h1, h2, h3, h4, h5]

/-- Shared helper: labels agree when the normalized folder names and the
minute-resolution timestamps agree. -/
theorem launchd_label_eq_of_norm (n1 n2 : String) (t1 t2 : DateTime)
    (hn : normalize_folder_name n1 = normalize_folder_name n2)
    (hm : minuteKey t1 = minuteKey t2) :
    launchd_label n1 t1 = launchd_label n2 t2 := by
  unfold launchd_label
  rw [hn, timestamp_label_congr hm]

/-- Claim C8 (confirmed): the scheduled-job label is a function of
exactly the folder's base name normalized (lower-cased, spaces and
hyphens removed) and the target timestamp at minute resolution: for two
registrations at the same minute (`minuteKey t1 = minuteKey t2` — the
seconds may differ), the labels coincide if and only if the folder names
normalize identically. -/
theorem launchd_label_collision_iff :
    ∀ (f1 f2 : String) (t1 t2 : DateTime), minuteKey t1 = minuteKey t2 →
      (launchd_label (pyAbspathBasename f1) t1 =
          launchd_label (pyAbspathBasename f2) t2 ↔
        normalize_folder_name (pyAbspathBasename f1) =
          normalize_folder_name (pyAbspathBasename f2)) := by
  intro f1 f2 t1 t2 hmk
  have hts := timestamp_label_congr hmk
  unfold launchd_label
  rw [hts]
  constructor
  · intro h
    have hd := congrArg String.data h
    simp only [String.data_append] at hd
    exact String.ext
      (List.append_cancel_left
        (List.append_cancel_right (List.append_cancel_right hd)))
  · intro h
    rw [h]

theorem launchd_label_collision_iff_witness :
    launchd_label (pyAbspathBasename "/repo/My Folder") ⟨2025, 10, 12, 4, 0, 0⟩ =
        launchd_label (pyAbspathBasename "/repo/my-folder") ⟨2025, 10, 12, 4, 0, 30⟩ ↔
      normalize_folder_name (pyAbspathBasename "/repo/My Folder") =
        normalize_folder_name (pyAbspathBasename "/repo/my-folder") :=
  launchd_label_collision_iff "/repo/My Folder" "/repo/my-folder"
    ⟨2025, 10, 12, 4, 0, 0⟩ ⟨2025, 10, 12, 4, 0, 30⟩ rfl

/-- Shared helper: reading back a just-written plist path yields the
just-written record (truncate-overwrite semantics of `open(path, "wb")`). -/
theorem fsRead_fsWrite (fs : PlistFS) (p : String) (d : PlistData) :
    fsRead (fsWrite fs p d) p = some d := by
  induction fs with
  | nil =>
    unfold fsWrite fsRead
    rw [if_pos (beq_self_eq_true p)]
  | cons hd rest ih =>
    obtain ⟨q, e⟩ := hd
    unfold fsWrite
    by_cases h : (q == p) = true
    · rw [if_pos h]
      unfold fsRead
      rw [if_pos (beq_self_eq_true p)]
    · rw [if_neg h]
      unfold fsRead
      rw [if_neg h]
      exact ih

/-- Claim C10 (confirmed): when two registrations derive the same label
(same normalized folder base name, same target minute), the second
`create_launchd_plist` call computes the same plist path, silently
truncate-overwrites the first job-definition file there with the second
job's record — it neither fails nor preserves the existing job — and
returns that same plist path. -/
theorem create_launchd_plist_overwrite :
    ∀ (f1 r1 : String) (t1 : DateTime) (f2 r2 : String) (t2 : DateTime)
      (sp pp ld : String) (fs : PlistFS),
      normalize_folder_name (pyAbspathBasename f1) =
        normalize_folder_name (pyAbspathBasename f2) →
      minuteKey t1 = minuteKey t2 →
      (create_launchd_plist f2 r2 t2 sp pp ld
          (create_launchd_plist f1 r1 t1 sp pp ld fs).2).1.1 =
        (create_launchd_plist f1 r1 t1 sp pp ld fs).1.1 ∧
      fsRead (create_launchd_plist f2 r2 t2 sp pp ld
          (create_launchd_plist f1 r1 t1 sp pp ld fs).2).2
          (create_launchd_plist f1 r1 t1 sp pp ld fs).1.1 =
        some (plist_of f2 r2 t2 sp pp) := by
  intro f1 r1 t1 f2 r2 t2 sp pp ld fs hn hm
  have hlab : (plist_of f1 r1 t1 sp pp).label = (plist_of f2 r2 t2 sp pp).label :=
    launchd_label_eq_of_norm (pyAbspathBasename f1) (pyAbspathBasename f2) t1 t2 hn hm
  unfold create_launchd_plist
  dsimp only
  rw [← hlab]
  exact ⟨rfl, fsRead_fsWrite _ _ _⟩

theorem create_launchd_plist_overwrite_witness :
    (create_launchd_plist "/repo/my-folder" "/repo" ⟨2025, 10, 12, 4, 0, 30⟩
        "/app/git_commit_executor.py" "/usr/bin/python3"
        "/Users/u/Library/LaunchAgents"
        (create_launchd_plist "/repo/My Folder" "/repo" ⟨2025, 10, 12, 4, 0, 0⟩
          "/app/git_commit_executor.py" "/usr/bin/python3"
          "/Users/u/Library/LaunchAgents" []).2).1.1 =
      (create_launchd_plist "/repo/My Folder" "/repo" ⟨2025, 10, 12, 4, 0, 0⟩
        "/app/git_commit_executor.py" "/usr/bin/python3"
        "/Users/u/Library/LaunchAgents" []).1.1 ∧
    fsRead (create_launchd_plist "/repo/my-folder" "/repo" ⟨2025, 10, 12, 4, 0, 30⟩
        "/app/git_commit_executor.py" "/usr/bin/python3"
        "/Users/u/Library/LaunchAgents"
        (create_launchd_plist "/repo/My Folder" "/repo" ⟨2025, 10, 12, 4, 0, 0⟩
          "/app/git_commit_executor.py" "/usr/bin/python3"
          "/Users/u/Library/LaunchAgents" []).2).2
        (create_launchd_plist "/repo/My Folder" "/repo" ⟨2025, 10, 12, 4, 0, 0⟩
          "/app/git_commit_executor.py" "/usr/bin/python3"
          "/Users/u/Library/LaunchAgents" []).1.1 =
      some (plist_of "/repo/my-folder" "/repo" ⟨2025, 10, 12, 4, 0, 30⟩
        "/app/git_commit_executor.py" "/usr/bin/python3") :=
  create_launchd_plist_overwrite "/repo/My Folder" "/repo" ⟨2025, 10, 12, 4, 0, 0⟩
    "/repo/my-folder" "/repo" ⟨2025, 10, 12, 4, 0, 30⟩
    "/app/git_commit_executor.py" "/usr/bin/python3"
    "/Users/u/Library/LaunchAgents" [] (by decide) rfl
